import Mathlib

/-!
Verification of the Think pipeline of the memora agent-memory service
(`memora/operations/think_operations.py` together with the data contracts of
`memora/response_models.py`).

The external collaborators (fact retriever, LLM gateway, fact store, task
backend) are modelled as oracles supplied through an environment record: each
oracle's outcome for the one invocation under study is a value of
`Except String _`, where `.error m` stands for the Python call raising an
exception with message `m`.  The orchestrator itself is translated statement
by statement from the source; the list of `CallEvent`s returned alongside the
result records which external calls were issued and in which order.
-/

/-- `MemoryFact` from `response_models.py`: one retrieved memory unit. -/
structure MemoryFact where
  id : String
  text : String
  fact_type : String
  context : Option String
  event_date : Option String
  activation : Option Rat
deriving DecidableEq, Repr

/-- `SearchResult` from `response_models.py` (the `trace` field is omitted
elsewhere in the pipeline and carried here as an option). -/
structure SearchResult where
  results : List MemoryFact
deriving DecidableEq, Repr

/-- `ThinkResult` from `response_models.py`: the Python `based_on` dict is
modelled as an association list in insertion order. -/
structure ThinkResult where
  text : String
  based_on : List (String × List MemoryFact)
  new_opinions : List String
deriving DecidableEq, Repr

/-- The task descriptor dict submitted to the task backend in
`think_async` step 6. -/
structure TaskDescriptor where
  type : String
  agent_id : String
  answer_text : String
  query : String
deriving DecidableEq, Repr

/-- Exceptions that can escape `think_async`, tagged by the statement that
raised them: the `ValueError` of the configuration check, or an exception
propagated unhandled from `search_async`, from the generation `call`, or from
`submit_task` (none of these is wrapped in a `try` in the source). -/
inductive ThinkError where
  | configError : String → ThinkError
  | searchError : String → ThinkError
  | generationError : String → ThinkError
  | submissionError : String → ThinkError
deriving DecidableEq, Repr

/-- External calls issued by `think_async`, in order. -/
inductive CallEvent where
  | searchCall (agent_id query : String) (thinking_budget : Nat)
  | llmCall (scope : String)
  | submitCall (d : TaskDescriptor)
deriving DecidableEq, Repr

/-- Oracle outcomes of the external collaborators for one `think_async`
invocation: whether `self._llm_config` is set, what `search_async` does,
what the generation `self._llm_config.call` does, and what
`self._task_backend.submit_task` does. -/
structure ThinkEnv where
  llmConfigured : Bool
  searchResult : Except String SearchResult
  generation : Except String String
  submitOutcome : Except String Unit

/-- The `ValueError` message of the configuration precondition check. -/
def configErrorMsg : String :=
  "Memory LLM API key not set. Set MEMORA_API_LLM_API_KEY environment variable."

/-- Python's `str.strip()` (no arguments): remove leading and trailing
whitespace. -/
def pyStrip (s : String) : String :=
  ⟨((s.data.dropWhile Char.isWhitespace).reverse.dropWhile
      Char.isWhitespace).reverse⟩

/-- `ThinkOperationsMixin.think_async`, translated statement by statement:
configuration check, one fused `search_async` call, partition of the results
by `fact_type`, the generation call (its result stripped), the `submit_task`
call, and the final `ThinkResult` with the dict
`{"world": ..., "agent": ..., "opinion": ...}` and `new_opinions=[]`.
Prompt construction is pure string formatting feeding the generation oracle
and does not affect any observable modelled here. -/
def think_async (env : ThinkEnv) (agent_id query : String)
    (thinking_budget : Nat) :
    Except ThinkError ThinkResult × List CallEvent :=
  if env.llmConfigured = false then
    (.error (.configError configErrorMsg), [])
  else
    match env.searchResult with
    | .error m =>
        (.error (.searchError m),
         [.searchCall agent_id query thinking_budget])
    | .ok search_result =>
      let all_results := search_result.results
      let agent_results := all_results.filter (fun r => r.fact_type == "agent")
      let world_results := all_results.filter (fun r => r.fact_type == "world")
      let opinion_results :=
        all_results.filter (fun r => r.fact_type == "opinion")
      match env.generation with
      | .error m =>
          (.error (.generationError m),
           [.searchCall agent_id query thinking_budget,
            .llmCall "memory_think"])
      | .ok raw =>
        let answer_text := pyStrip raw
        let descriptor : TaskDescriptor :=
          { type := "form_opinion", agent_id := agent_id,
            answer_text := answer_text, query := query }
        match env.submitOutcome with
        | .error m =>
            (.error (.submissionError m),
             [.searchCall agent_id query thinking_budget,
              .llmCall "memory_think", .submitCall descriptor])
        | .ok _ =>
            (.ok { text := answer_text,
                   based_on :=
                     [("world", world_results),
                      ("agent", agent_results),
                      ("opinion", opinion_results)],
                   new_opinions := [] },
             [.searchCall agent_id query thinking_budget,
              .llmCall "memory_think", .submitCall descriptor])

/-- The nested pydantic model `Opinion` of `_extract_opinions_from_text`
(confidence is a numeric score with no declared bounds). -/
structure Opinion where
  opinion : String
  reasons : String
  confidence : Rat
deriving DecidableEq, Repr

/-- The pydantic model `OpinionExtractionResponse`. -/
structure OpinionExtractionResponse where
  opinions : List Opinion
deriving DecidableEq, Repr

/-- One element of the list `_extract_opinions_from_text` returns: a dict
with keys `text` and `confidence`. -/
structure FormattedOpinion where
  text : String
  confidence : Rat
deriving DecidableEq, Repr

/-- `ThinkOperationsMixin._extract_opinions_from_text`: the
schema-constrained gateway call is the oracle `llmExtract`, applied to the
answer text and query that the extraction prompt is built from; on success
each `Opinion` is formatted as `f"{op.opinion} (Reasons: {op.reasons})"` with
its confidence carried along; on any exception the `except` clause logs and
returns the empty list. -/
def extract_opinions_from_text
    (llmExtract : String → String → Except String OpinionExtractionResponse)
    (text query : String) :
    List FormattedOpinion :=
  match llmExtract text query with
  | .error _ => []
  | .ok result =>
      result.opinions.map (fun op =>
        { text := op.opinion ++ " (Reasons: " ++ op.reasons ++ ")",
          confidence := op.confidence })

/-- The arguments of one `put_async` call made by
`_extract_and_store_opinions_async` (the fact-store write).  The
`datetime.now(timezone.utc)` instant is modelled as an abstract `Nat`
timestamp. -/
structure PutArgs where
  agent_id : String
  content : String
  context : String
  event_date : Nat
  fact_type_override : String
  confidence_score : Rat
deriving DecidableEq, Repr

/-- The `put_async` keyword arguments built for one formatted opinion inside
the storage loop of `_extract_and_store_opinions_async`. -/
def mkPutArgs (agent_id query : String) (current_time : Nat)
    (op : FormattedOpinion) : PutArgs :=
  { agent_id := agent_id,
    content := op.text,
    context := "formed during thinking about: " ++ query,
    event_date := current_time,
    fact_type_override := "opinion",
    confidence_score := op.confidence }

/-- The `for opinion_dict in new_opinions:` loop of
`_extract_and_store_opinions_async`.  `putOk i` tells whether the `i`-th
`put_async` call (counting from the start of the batch) succeeds; a raising
call is the last one attempted, and its exception travels up to the `try` of
the enclosing routine.  Returns the `put_async` calls attempted, in order,
and the escaping exception if any. -/
def put_loop (agent_id query : String) (current_time : Nat)
    (putOk : Nat → Bool) :
    List FormattedOpinion → Nat → List PutArgs × Option String
  | [], _ => ([], none)
  | op :: rest, i =>
    let args := mkPutArgs agent_id query current_time op
    if putOk i then
      let r := put_loop agent_id query current_time putOk rest (i + 1)
      (args :: r.1, r.2)
    else
      ([args], some "put failed")

/-- `ThinkOperationsMixin._extract_and_store_opinions_async`: extract the
opinions (total: extraction failures already yield `[]`), capture one UTC
timestamp, run the storage loop, and catch any exception of the whole body
(`except Exception as e: logger.warning(...)`), so nothing propagates into
the worker loop.  Returns the attempted `put_async` calls and the exception
that escapes the routine — by the final `match`, always `none`. -/
def extract_and_store_opinions_async
    (llmExtract : String → String → Except String OpinionExtractionResponse)
    (putOk : Nat → Bool) (agent_id answer_text query : String)
    (current_time : Nat) : List PutArgs × Option String :=
  let new_opinions := extract_opinions_from_text llmExtract answer_text query
  let body := put_loop agent_id query current_time putOk new_opinions 0
  match body.2 with
  | some _ => (body.1, none)
  | none => (body.1, none)

/-! ## Helper observations on `ThinkResult` -/

/-- The keys of the `based_on` dict, in insertion order. -/
def basedOnKeys (r : ThinkResult) : List String := r.based_on.map Prod.fst

/-- The concatenation of the `based_on` partitions in the dict's insertion
order (world, agent, opinion). -/
def basedOnConcat (r : ThinkResult) : List MemoryFact :=
  (r.based_on.map Prod.snd).flatten

/-- The partition stored under key `k` of the `based_on` dict. -/
def partitionOf (r : ThinkResult) (k : String) : List MemoryFact :=
  ((r.based_on.filter (fun p => p.1 == k)).map Prod.snd).flatten

/-! ## Concrete fixtures -/

def fAgent1 : MemoryFact :=
  { id := "id-a1", text := "agent fact one", fact_type := "agent",
    context := none, event_date := none, activation := none }

def fAgent2 : MemoryFact :=
  { id := "id-a2", text := "agent fact two", fact_type := "agent",
    context := none, event_date := none, activation := none }

def fWorld1 : MemoryFact :=
  { id := "id-w1", text := "world fact one", fact_type := "world",
    context := none, event_date := none, activation := none }

def envOk : ThinkEnv :=
  { llmConfigured := true,
    searchResult := .ok ⟨[fAgent1, fWorld1, fAgent2]⟩,
    generation := .ok "the answer",
    submitOutcome := .ok () }

def thinkOkResult : ThinkResult :=
  { text := "the answer",
    based_on :=
      [("world", [fWorld1]), ("agent", [fAgent1, fAgent2]), ("opinion", [])],
    new_opinions := [] }

def envNoConfig : ThinkEnv :=
  { llmConfigured := false,
    searchResult := .ok ⟨[fWorld1]⟩,
    generation := .ok "the answer",
    submitOutcome := .ok () }

def envSubmitFail : ThinkEnv :=
  { llmConfigured := true,
    searchResult := .ok ⟨[fWorld1]⟩,
    generation := .ok "the answer",
    submitOutcome := .error "queue unavailable" }

def envGenFail : ThinkEnv :=
  { llmConfigured := true,
    searchResult := .ok ⟨[fWorld1]⟩,
    generation := .error "rate limited",
    submitOutcome := .ok () }

def envEmptyGen : ThinkEnv :=
  { llmConfigured := true,
    searchResult := .ok ⟨[]⟩,
    generation := .ok "",
    submitOutcome := .ok () }

/-! ## Claim theorems -/

/-- C2: for every agent_id, query, and thinking_budget, whenever
`think_async` returns a `ThinkResult`, its `new_opinions` field is the empty
list, regardless of the retrieval result or of the generated answer text. -/
theorem C2_new_opinions_empty (env : ThinkEnv) (agent_id query : String)
    (thinking_budget : Nat) (r : ThinkResult)
    (h : (think_async env agent_id query thinking_budget).1 = .ok r) :
    r.new_opinions = [] := by
  obtain ⟨c, s, g, sb⟩ := env
  cases c <;> rcases s with m | sr <;> rcases g with m2 | raw <;>
      rcases sb with m3 | u <;> simp [think_async] at h
  simp [← h]

/-- Witness for C2 at a concrete environment. -/
theorem C2_witness : thinkOkResult.new_opinions = [] :=
  C2_new_opinions_empty envOk "agent-1" "q1" 50 thinkOkResult rfl

/-- C6: if the LLM gateway configuration is missing, `think_async` fails
with the configuration `ValueError` before performing any I/O: the call
trace is empty — no retrieval call, no generation call, no task
submission. -/
theorem C6_config_error_pre_io (env : ThinkEnv) (agent_id query : String)
    (thinking_budget : Nat) (h : env.llmConfigured = false) :
    think_async env agent_id query thinking_budget =
      (.error (.configError configErrorMsg), []) := by
  simp [think_async, h]

/-- Witness for C6 at a concrete environment. -/
theorem C6_witness :
    think_async envNoConfig "agent-1" "q1" 50 =
      (.error (.configError configErrorMsg), []) :=
  C6_config_error_pre_io envNoConfig "agent-1" "q1" 50 rfl

/-- C3 counterexample: an environment where retrieval and generation succeed
but `submit_task` raises; `think_async` then surfaces the submission failure
to the caller instead of returning the generated answer, because the
`await self._task_backend.submit_task(...)` statement is not wrapped in any
`try`/`except`. -/
theorem C3_counterexample :
    envSubmitFail.searchResult = .ok ⟨[fWorld1]⟩ ∧
    envSubmitFail.generation = .ok "the answer" ∧
    (think_async envSubmitFail "agent-1" "q1" 50).1 =
      .error (.submissionError "queue unavailable") :=
  ⟨rfl, rfl, rfl⟩

/-- C3 amended: when retrieval and generation succeed but the
task-submission call raises, the exception propagates to the caller —
`think_async` returns no `ThinkResult`; the failure is surfaced, not logged
and swallowed. -/
theorem C3_submission_failure_propagates (env : ThinkEnv)
    (agent_id query : String) (thinking_budget : Nat)
    (sr : SearchResult) (g m : String)
    (hc : env.llmConfigured = true) (hs : env.searchResult = .ok sr)
    (hg : env.generation = .ok g) (hb : env.submitOutcome = .error m) :
    (think_async env agent_id query thinking_budget).1 =
      .error (.submissionError m) := by
  simp [think_async, hc, hs, hg, hb]

/-- Witness for the amended C3 at a concrete environment. -/
theorem C3_witness :
    (think_async envSubmitFail "agent-1" "q1" 50).1 =
      .error (.submissionError "queue unavailable") :=
  C3_submission_failure_propagates envSubmitFail "agent-1" "q1" 50
    ⟨[fWorld1]⟩ "the answer" "queue unavailable" rfl rfl rfl rfl

/-- C4 counterexample: the generation call succeeds with an empty result;
`think_async` does not raise — it proceeds, submits the `form_opinion` task,
and returns a `ThinkResult` whose text is empty, contradicting the claim
that an empty generation result raises `GenerationError` with no task
submission. -/
theorem C4_counterexample :
    envEmptyGen.generation = .ok "" ∧
    think_async envEmptyGen "agent-1" "q1" 50 =
      (.ok { text := "",
             based_on := [("world", []), ("agent", []), ("opinion", [])],
             new_opinions := [] },
       [.searchCall "agent-1" "q1" 50, .llmCall "memory_think",
        .submitCall ⟨"form_opinion", "agent-1", "", "q1"⟩]) :=
  ⟨rfl, rfl⟩

/-- C4 amended: when the primary generation call raises, the failure
propagates out of `think_async` (no answer is produced) and no task
submission is performed; an empty generation result, however, is not treated
as a failure. -/
theorem C4_generation_error_propagates (env : ThinkEnv)
    (agent_id query : String) (thinking_budget : Nat)
    (sr : SearchResult) (m : String)
    (hc : env.llmConfigured = true) (hs : env.searchResult = .ok sr)
    (hg : env.generation = .error m) :
    (think_async env agent_id query thinking_budget).1 =
      .error (.generationError m) ∧
    ∀ d, CallEvent.submitCall d ∉
      (think_async env agent_id query thinking_budget).2 := by
  simp [think_async, hc, hs, hg]

/-- Witness for the amended C4 at a concrete environment. -/
theorem C4_witness :
    (think_async envGenFail "agent-1" "q1" 50).1 =
      .error (.generationError "rate limited") ∧
    CallEvent.submitCall ⟨"form_opinion", "agent-1", "", "q1"⟩ ∉
      (think_async envGenFail "agent-1" "q1" 50).2 :=
  ⟨(C4_generation_error_propagates envGenFail "agent-1" "q1" 50
      ⟨[fWorld1]⟩ "rate limited" rfl rfl rfl).1,
   (C4_generation_error_propagates envGenFail "agent-1" "q1" 50
      ⟨[fWorld1]⟩ "rate limited" rfl rfl rfl).2 _⟩

/-- A list every element of which has fact type agent, world, or opinion is
a permutation of its three type filters concatenated (world, agent, opinion
— the insertion order of the `based_on` dict). -/
theorem filter_three_perm (l : List MemoryFact)
    (h : ∀ f ∈ l, f.fact_type = "agent" ∨ f.fact_type = "world" ∨
      f.fact_type = "opinion") :
    List.Perm
      (l.filter (fun r => r.fact_type == "world") ++
       (l.filter (fun r => r.fact_type == "agent") ++
        l.filter (fun r => r.fact_type == "opinion"))) l := by
  induction l with
  | nil => simp
  | cons x t ih =>
    have hx := h x (List.mem_cons_self x t)
    have iht := ih (fun f hf => h f (List.mem_cons_of_mem x hf))
    rcases hx with hx | hx | hx
    · rw [List.filter_cons, List.filter_cons, List.filter_cons]
      simp only [hx, show (("agent" == "world") = false) from rfl,
        show (("agent" == "agent") = true) from rfl,
        show (("agent" == "opinion") = false) from rfl,
        Bool.false_eq_true, if_true, if_false, List.cons_append]
      exact List.perm_middle.trans (iht.cons x)
    · rw [List.filter_cons, List.filter_cons, List.filter_cons]
      simp only [hx, show (("world" == "world") = true) from rfl,
        show (("world" == "agent") = false) from rfl,
        show (("world" == "opinion") = false) from rfl,
        Bool.false_eq_true, if_true, if_false, List.cons_append]
      exact iht.cons x
    · rw [List.filter_cons, List.filter_cons, List.filter_cons]
      simp only [hx, show (("opinion" == "world") = false) from rfl,
        show (("opinion" == "agent") = false) from rfl,
        show (("opinion" == "opinion") = true) from rfl,
        Bool.false_eq_true, if_true, if_false, List.cons_append]
      exact ((List.Perm.append_left _ List.perm_middle).trans
        List.perm_middle).trans (iht.cons x)

/-- C1 counterexample: with the fused retrieval returning
`[fAgent1, fWorld1, fAgent2]` (agent and world facts interleaved in rank
order), `think_async` succeeds, yet the concatenation of the `based_on`
partitions — taken in the dict's insertion order (world, agent, opinion) or
in the claim's key order (agent, world, opinion) — regroups by type and so
does not equal the retrieval result. -/
theorem C1_counterexample :
    envOk.searchResult = .ok ⟨[fAgent1, fWorld1, fAgent2]⟩ ∧
    (think_async envOk "agent-1" "q1" 50).1 = .ok thinkOkResult ∧
    basedOnConcat thinkOkResult ≠ [fAgent1, fWorld1, fAgent2] ∧
    partitionOf thinkOkResult "agent" ++ partitionOf thinkOkResult "world" ++
      partitionOf thinkOkResult "opinion" ≠ [fAgent1, fWorld1, fAgent2] :=
  ⟨rfl, rfl, by decide, by decide⟩

/-- C1 amended: whenever `think_async` completes successfully, `based_on`
has exactly the three keys world, agent, opinion (each a possibly empty
list), and each partition is the order-preserving filter of the retrieval
result by that fact type; provided every retrieved fact's type is one of the
three, no fact is dropped or duplicated — the concatenation of the
partitions is a permutation of the retrieval result (it equals the retrieval
result exactly only when the result is already grouped by type). -/
theorem C1_partition (env : ThinkEnv) (agent_id query : String)
    (thinking_budget : Nat) (sr : SearchResult) (r : ThinkResult)
    (hs : env.searchResult = .ok sr)
    (h : (think_async env agent_id query thinking_budget).1 = .ok r)
    (htypes : ∀ f ∈ sr.results,
      f.fact_type = "agent" ∨ f.fact_type = "world" ∨
      f.fact_type = "opinion") :
    basedOnKeys r = ["world", "agent", "opinion"] ∧
    r.based_on =
      [("world", sr.results.filter (fun f => f.fact_type == "world")),
       ("agent", sr.results.filter (fun f => f.fact_type == "agent")),
       ("opinion", sr.results.filter (fun f => f.fact_type == "opinion"))] ∧
    List.Perm (basedOnConcat r) sr.results := by
  obtain ⟨c, s, g, sb⟩ := env
  simp only at hs
  subst hs
  cases c <;> rcases g with m2 | raw <;> rcases sb with m3 | u <;>
      simp [think_async] at h
  subst h
  refine ⟨rfl, rfl, ?_⟩
  simpa [basedOnConcat] using filter_three_perm sr.results htypes

/-- Witness for the amended C1 at a concrete environment with interleaved
fact types. -/
theorem C1_witness :
    basedOnKeys thinkOkResult = ["world", "agent", "opinion"] ∧
    thinkOkResult.based_on =
      [("world",
        [fAgent1, fWorld1, fAgent2].filter (fun f => f.fact_type == "world")),
       ("agent",
        [fAgent1, fWorld1, fAgent2].filter (fun f => f.fact_type == "agent")),
       ("opinion",
        [fAgent1, fWorld1, fAgent2].filter
          (fun f => f.fact_type == "opinion"))] ∧
    List.Perm (basedOnConcat thinkOkResult) [fAgent1, fWorld1, fAgent2] :=
  C1_partition envOk "agent-1" "q1" 50 ⟨[fAgent1, fWorld1, fAgent2]⟩
    thinkOkResult rfl rfl (by decide)

/-! ## Background routine: helper lemmas and fixtures -/

/-- The attempted `put_async` calls of the background routine are those of
its storage loop: the trailing `except` clause only swallows the error. -/
theorem extract_and_store_fst
    (llmExtract : String → String → Except String OpinionExtractionResponse)
    (putOk : Nat → Bool) (agent_id answer_text query : String) (t : Nat) :
    (extract_and_store_opinions_async llmExtract putOk agent_id answer_text
        query t).1 =
      (put_loop agent_id query t putOk
        (extract_opinions_from_text llmExtract answer_text query) 0).1 := by
  cases hb : (put_loop agent_id query t putOk
      (extract_opinions_from_text llmExtract answer_text query) 0).2 <;>
    simp [extract_and_store_opinions_async, hb]

/-- The background routine never lets an exception escape: its `except`
clause swallows whatever the body raised. -/
theorem extract_and_store_snd
    (llmExtract : String → String → Except String OpinionExtractionResponse)
    (putOk : Nat → Bool) (agent_id answer_text query : String) (t : Nat) :
    (extract_and_store_opinions_async llmExtract putOk agent_id answer_text
        query t).2 = none := by
  cases hb : (put_loop agent_id query t putOk
      (extract_opinions_from_text llmExtract answer_text query) 0).2 <;>
    simp [extract_and_store_opinions_async, hb]

/-- Every `put_async` call attempted by the storage loop is built by
`mkPutArgs` from one of the loop's formatted opinions. -/
theorem put_loop_mem (agent_id query : String) (t : Nat) (putOk : Nat → Bool) :
    ∀ (ops : List FormattedOpinion) (i : Nat) (args : PutArgs),
      args ∈ (put_loop agent_id query t putOk ops i).1 →
      ∃ op ∈ ops, args = mkPutArgs agent_id query t op := by
  intro ops
  induction ops with
  | nil => intro i args h; simp [put_loop] at h
  | cons op rest ih =>
    intro i args h
    by_cases hok : putOk i
    · simp [put_loop, hok] at h
      rcases h with h | h
      · exact ⟨op, by simp, h⟩
      · obtain ⟨op2, hmem, he⟩ := ih (i + 1) args h
        exact ⟨op2, by simp [hmem], he⟩
    · simp [put_loop, hok] at h
      exact ⟨op, by simp, h⟩

/-- When every `put_async` call succeeds, the storage loop persists the
whole batch in order. -/
theorem put_loop_all_ok (agent_id query : String) (t : Nat)
    (putOk : Nat → Bool) (hok : ∀ j, putOk j = true) :
    ∀ (ops : List FormattedOpinion) (i : Nat),
      put_loop agent_id query t putOk ops i =
        (ops.map (mkPutArgs agent_id query t), none) := by
  intro ops
  induction ops with
  | nil => intro i; rfl
  | cons op rest ih => intro i; simp [put_loop, hok i, ih (i + 1)]

/-- When the `k`-th `put_async` call raises, the storage loop attempts no
call beyond it: starting from index `i ≤ k`, at most `k + 1 - i` calls are
attempted. -/
theorem put_loop_stops (agent_id query : String) (t : Nat)
    (putOk : Nat → Bool) (k : Nat) (hk : putOk k = false) :
    ∀ (ops : List FormattedOpinion) (i : Nat), i ≤ k →
      (put_loop agent_id query t putOk ops i).1.length ≤ k + 1 - i := by
  intro ops
  induction ops with
  | nil => intro i hi; simp [put_loop]
  | cons op rest ih =>
    intro i hi
    by_cases hok : putOk i
    · have hik : i ≠ k := fun he => by rw [he, hk] at hok; simp at hok
      have hi2 : i + 1 ≤ k := Nat.lt_of_le_of_ne hi hik
      have hrec := ih (i + 1) hi2
      simp [put_loop, hok]
      omega
    · simp [put_loop, hok]
      omega

def opFirst : Opinion :=
  { opinion := "X is the best approach", reasons := "Y", confidence := 1 }

def opSecond : Opinion :=
  { opinion := "Z should be avoided", reasons := "W", confidence := 1 }

def opWild : Opinion :=
  { opinion := "overconfident claim", reasons := "none", confidence := 2 }

def respTwo : OpinionExtractionResponse := ⟨[opFirst, opSecond]⟩

def extractOkTwo : String → String → Except String OpinionExtractionResponse :=
  fun _ _ => .ok respTwo

def extractWild : String → String → Except String OpinionExtractionResponse :=
  fun _ _ => .ok ⟨[opWild]⟩

def extractFail : String → String → Except String OpinionExtractionResponse :=
  fun _ _ => .error "schema violation"

def allPutsOk : Nat → Bool := fun _ => true

def firstPutFails : Nat → Bool := fun i => i != 0

/-- C5 counterexample: the extraction yields two candidates and the first
`put_async` call raises; the routine swallows the failure, but the second
candidate's persistence is never attempted — only one `put_async` call is
made, because the `try` of `_extract_and_store_opinions_async` wraps the
whole loop rather than each iteration. -/
theorem C5_counterexample :
    (extract_opinions_from_text extractOkTwo "answer" "q1").length = 2 ∧
    firstPutFails 0 = false ∧
    (extract_and_store_opinions_async extractOkTwo firstPutFails "agent-1"
        "answer" "q1" 7).1.length = 1 :=
  ⟨rfl, rfl, rfl⟩

/-- C5 amended: when the `k`-th `put_async` call of a batch raises, the
failure is swallowed (nothing escapes into the worker loop) but it aborts
the batch: no candidate after the failing one is attempted, so at most
`k + 1` persistence calls are made. -/
theorem C5_put_failure_aborts_batch
    (llmExtract : String → String → Except String OpinionExtractionResponse)
    (putOk : Nat → Bool) (agent_id answer_text query : String) (t k : Nat)
    (hk : putOk k = false) :
    (extract_and_store_opinions_async llmExtract putOk agent_id answer_text
        query t).1.length ≤ k + 1 ∧
    (extract_and_store_opinions_async llmExtract putOk agent_id answer_text
        query t).2 = none := by
  constructor
  · rw [extract_and_store_fst]
    simpa using put_loop_stops agent_id query t putOk k hk
      (extract_opinions_from_text llmExtract answer_text query) 0
      (Nat.zero_le k)
  · exact extract_and_store_snd llmExtract putOk agent_id answer_text query t

/-- Witness for the amended C5 at a concrete batch of two candidates whose
first persistence call fails. -/
theorem C5_witness :
    (extract_and_store_opinions_async extractOkTwo firstPutFails "agent-1"
        "answer" "q1" 7).1.length ≤ 0 + 1 ∧
    (extract_and_store_opinions_async extractOkTwo firstPutFails "agent-1"
        "answer" "q1" 7).2 = none :=
  C5_put_failure_aborts_batch extractOkTwo firstPutFails "agent-1" "answer"
    "q1" 7 0 rfl

/-- C7: with the schema-constrained extraction succeeding and every
persistence call accepted, the background routine writes exactly one Fact
per candidate, in order: content `"{opinion} (Reasons: {reasons})"`, fact
type forced to `opinion`, context the fixed template referencing the
originating query, event date the extraction-time timestamp (one per
batch), and the candidate's confidence retained as metadata. -/
theorem C7_persisted_opinion_shape
    (llmExtract : String → String → Except String OpinionExtractionResponse)
    (putOk : Nat → Bool) (resp : OpinionExtractionResponse)
    (agent_id answer_text query : String) (t : Nat)
    (he : llmExtract answer_text query = .ok resp)
    (hok : ∀ j, putOk j = true) :
    (extract_and_store_opinions_async llmExtract putOk agent_id answer_text
        query t).1 =
      resp.opinions.map (fun op =>
        { agent_id := agent_id,
          content := op.opinion ++ " (Reasons: " ++ op.reasons ++ ")",
          context := "formed during thinking about: " ++ query,
          event_date := t,
          fact_type_override := "opinion",
          confidence_score := op.confidence }) := by
  rw [extract_and_store_fst, put_loop_all_ok agent_id query t putOk hok]
  simp [extract_opinions_from_text, he, mkPutArgs, List.map_map,
    Function.comp]

/-- Witness for C7 at a concrete two-candidate extraction response. -/
theorem C7_witness :
    (extract_and_store_opinions_async extractOkTwo allPutsOk "agent-1"
        "answer" "q1" 7).1 =
      respTwo.opinions.map (fun op =>
        { agent_id := "agent-1",
          content := op.opinion ++ " (Reasons: " ++ op.reasons ++ ")",
          context := "formed during thinking about: " ++ "q1",
          event_date := 7,
          fact_type_override := "opinion",
          confidence_score := op.confidence }) :=
  C7_persisted_opinion_shape extractOkTwo allPutsOk respTwo "agent-1"
    "answer" "q1" 7 rfl (fun _ => rfl)

/-- C8: when the schema-constrained extraction call raises (or its result is
unparseable), `_extract_opinions_from_text` returns the empty list, the
background routine attempts zero persistence calls, and no exception escapes
into the task backend's worker loop. -/
theorem C8_extraction_failure_contained
    (llmExtract : String → String → Except String OpinionExtractionResponse)
    (putOk : Nat → Bool) (agent_id answer_text query : String) (t : Nat)
    (m : String) (he : llmExtract answer_text query = .error m) :
    extract_opinions_from_text llmExtract answer_text query = [] ∧
    extract_and_store_opinions_async llmExtract putOk agent_id answer_text
      query t = ([], none) := by
  have h1 : extract_opinions_from_text llmExtract answer_text query = [] := by
    simp [extract_opinions_from_text, he]
  refine ⟨h1, ?_⟩
  simp [extract_and_store_opinions_async, h1, put_loop]

/-- Witness for C8 at a concrete failing extraction call. -/
theorem C8_witness :
    extract_opinions_from_text extractFail "answer" "q1" = [] ∧
    extract_and_store_opinions_async extractFail allPutsOk "agent-1"
      "answer" "q1" 7 = ([], none) :=
  C8_extraction_failure_contained extractFail allPutsOk "agent-1" "answer"
    "q1" 7 "schema violation" rfl

/-- C9: every `put_async` call attempted within one run of the background
routine carries the same event date — the single UTC timestamp captured
once before the persistence loop. -/
theorem C9_uniform_event_date
    (llmExtract : String → String → Except String OpinionExtractionResponse)
    (putOk : Nat → Bool) (agent_id answer_text query : String) (t : Nat)
    (args : PutArgs)
    (h : args ∈ (extract_and_store_opinions_async llmExtract putOk agent_id
      answer_text query t).1) :
    args.event_date = t := by
  rw [extract_and_store_fst] at h
  obtain ⟨op, _, he⟩ := put_loop_mem agent_id query t putOk
    (extract_opinions_from_text llmExtract answer_text query) 0 args h
  simp [he, mkPutArgs]

/-- Witness for C9: the second persisted Fact of a concrete two-candidate
batch carries the batch timestamp. -/
theorem C9_witness :
    (mkPutArgs "agent-1" "q1" 7
      ⟨"Z should be avoided (Reasons: W)", 1⟩).event_date = 7 :=
  C9_uniform_event_date extractOkTwo allPutsOk "agent-1" "answer" "q1" 7
    (mkPutArgs "agent-1" "q1" 7 ⟨"Z should be avoided (Reasons: W)", 1⟩)
    (by decide)

/-- C10: the confidence score of each extracted candidate is passed through
to persistence verbatim — the list of persisted confidence values equals the
list of extracted confidence values, with no clamping or range validation
anywhere on the path. -/
theorem C10_confidence_passthrough
    (llmExtract : String → String → Except String OpinionExtractionResponse)
    (putOk : Nat → Bool) (resp : OpinionExtractionResponse)
    (agent_id answer_text query : String) (t : Nat)
    (he : llmExtract answer_text query = .ok resp)
    (hok : ∀ j, putOk j = true) :
    ((extract_and_store_opinions_async llmExtract putOk agent_id answer_text
        query t).1).map (fun args => args.confidence_score) =
      resp.opinions.map (fun op => op.confidence) := by
  rw [extract_and_store_fst, put_loop_all_ok agent_id query t putOk hok]
  simp [extract_opinions_from_text, he, mkPutArgs, List.map_map,
    Function.comp]

/-- Witness for C10: a gateway response reporting the out-of-range
confidence 2 is persisted unchanged. -/
theorem C10_witness :
    ((extract_and_store_opinions_async extractWild allPutsOk "agent-1"
        "answer" "q1" 7).1).map (fun args => args.confidence_score) =
      [2] ∧ ¬((2 : Rat) ≤ 1) :=
  ⟨C10_confidence_passthrough extractWild allPutsOk ⟨[opWild]⟩ "agent-1"
    "answer" "q1" 7 rfl (fun _ => rfl), by decide⟩
